import Mathlib

/-!
Verification of the session multiplexer in gdbgui's `src/gdbgui/backend.py`.

The Python module is shallowly embedded as pure Lean functions over an
explicit server state.  Conventions:

* The socket.io handlers `client_connected`, `run_gdb_command` and
  `client_disconnected` (backend.py lines 123-179) become functions
  `ServerState → HResult`, where `HResult` records the post state, the
  list of events the handler emitted before returning or raising, and
  the exception that escaped the handler, if any.
* The module-level dict `_gdb_state['gdb_controllers']` becomes an
  association list with unique keys; `_gdb_state['gdb_reader_thread']`
  becomes an `Option Unit`, together with a ghost counter of how many
  times `socketio.start_background_task` was called.
* `pygdbmi.GdbController` is an external collaborator that is out of
  scope for the repository; it is modelled at the interface the spec
  gives for it (`spawn`, `write`, `pollOnce -> Option Record | Closed`,
  `terminate`): a `GdbProc` carries its pid, the argument list it was
  spawned with, a FIFO queue of parsed response records, a `closed` flag
  making `get_gdb_response` raise, and an optional `write` failure.
* The body of `read_and_forward_gdb_output` (lines 187-209) becomes a
  per-tick function over the table; the `try`/`except` at lines 194-209
  is modelled by `read_session_body` (which can return an error) wrapped
  by `read_session_guarded` (which swallows it, as the handler does).
  CPython 3 dict semantics for the `for ... in d.items()` loop at line
  193 — the view iterates the live dict, and `next` raises
  `RuntimeError` when the dict's size changed mid-iteration, at a
  program point outside the per-session `try` — are modelled by
  `read_and_forward_tick_interleaved`.
-/

namespace Gdbgui

/-- Websocket connection id (`request.sid`); an opaque string assigned by
the transport layer. -/
abbrev Sid := String

/-- An opaque parsed gdb machine-interface response record.  The backend
forwards records verbatim, so their structure is irrelevant. -/
abbrev Record := Nat

/-- The Python exceptions that can escape the pieces of code under
verification. -/
inductive Exn where
  | nameError
  | runtimeError
  | spawnError
  | pollError
  | attributeError
  | keyError
  deriving DecidableEq

/-- Model of one `pygdbmi.GdbController` instance together with its gdb
subprocess.  `pending` is the FIFO queue of parsed responses the process
has emitted but the dispatcher has not yet read; `closed` means the
process handle is no longer valid, so polling it raises; `writeFails`
holds the message of the exception that `write` raises, if any.  The
collaborator is external to the repository and is modelled at the spec's
capability contract (`pollOnce(handle) -> Option<Record> | Closed`). -/
structure GdbProc where
  pid : Nat
  args : List String
  pending : List Record
  closed : Bool
  writeFails : Option String
  deriving DecidableEq

/-- The `_gdb_state['gdb_controllers']` dict: connection id to controller.
Keys are unique; a value of `none` stands for a `None` entry, which the
dispatcher's `if gdb is not None` check at line 195 guards against even
though this module never stores one. -/
abbrev Table := List (Sid × Option GdbProc)

/-- The outbound socket.io events the backend emits, each addressed to one
connection id (its room). -/
inductive Event where
  | gdbPid (sid : Sid) (pid : Nat)
  | gdbResponse (sid : Sid) (record : Record)
  | errorRunningGdbCommand (sid : Sid) (message : String)
  deriving DecidableEq

/-- The literal socket.io event name each `Event` is emitted under. -/
def Event.wireName : Event → String
  | .gdbPid _ _ => "gdb_pid"
  | .gdbResponse _ _ => "gdb_response"
  | .errorRunningGdbCommand _ _ => "error_running_gdb_command"

/-- The connection id (room) an event is addressed to. -/
def Event.sidOf : Event → Sid
  | .gdbPid sid _ => sid
  | .gdbResponse sid _ => sid
  | .errorRunningGdbCommand sid _ => sid

/-- The mutable module-level state of backend.py that the claims are
about: the controllers dict (line 64), the reader-thread slot (line 66)
with a ghost count of `start_background_task` calls, the module-level
argument lists `DEFAULT_GDB_ARGS` / `DEFAULT_LLDB_ARGS` (lines 41-42,
mutable because line 139 appends to whichever one `gdb_args` aliases), a
ghost list of pids that were sent a termination signal, and a supply of
fresh pids for spawns. -/
structure ServerState where
  gdbControllers : Table
  gdbReaderThread : Option Unit
  readerStartCount : Nat
  defaultGdbArgs : List String
  defaultLldbArgs : List String
  terminatedPids : List Nat
  nextPid : Nat
  deriving DecidableEq

/-- Per-server configuration fixed before any client connects:
`app.config['LLDB']`, `app.config['gdb_path']`, and the module-level
`STARTUP_WITH_SHELL_OFF` flag, which is `none` when the platform check at
lines 45-51 never assigned the name (reading it then raises NameError). -/
structure Config where
  lldb : Bool
  gdbPath : String
  startupWithShellOff : Option Bool
  deriving DecidableEq

/-- Result of running one socket.io handler: the state when the handler
returned or raised, the events it emitted before that point, the argument
list passed to a `GdbController` spawn if one was attempted, and the
exception that escaped the handler, if any. -/
structure HResult where
  state : ServerState
  events : List Event
  spawnedArgs : Option (List String)
  exn : Option Exn
  deriving DecidableEq

/-- `DEFAULT_GDB_ARGS` (line 41), the initial value of the module-level
list. -/
def DEFAULT_GDB_ARGS : List String := ["-nx", "--interpreter=mi2"]

/-- `DEFAULT_LLDB_ARGS` (line 42). -/
def DEFAULT_LLDB_ARGS : List String := ["--interpreter=mi2"]

/-- The flag appended at line 139 when `STARTUP_WITH_SHELL_OFF` is
truthy. -/
def shellOffArg : String := "--init-eval-command=set startup-with-shell off"

/-- The module state right after import: empty controllers dict, no
reader thread, pristine argument lists. -/
def initialState : ServerState where
  gdbControllers := []
  gdbReaderThread := none
  readerStartCount := 0
  defaultGdbArgs := DEFAULT_GDB_ARGS
  defaultLldbArgs := DEFAULT_LLDB_ARGS
  terminatedPids := []
  nextPid := 1000

/-- Dict access: `d[sid]` / `sid in d.keys()` / `d.get(sid)`.  Returns
`none` when the key is absent, `some v` when present with value `v`. -/
def tableGet : Table → Sid → Option (Option GdbProc)
  | [], _ => none
  | (s, g) :: rest, sid => if s = sid then some g else tableGet rest sid

/-- Dict removal: `d.pop(sid)`. -/
def removeKey : Table → Sid → Table
  | [], _ => []
  | (s, g) :: rest, sid =>
      if s = sid then removeKey rest sid else (s, g) :: removeKey rest sid

/-- The keys of the table, in iteration order. -/
def keysOf (tbl : Table) : List Sid := tbl.map (fun e => e.1)

/-- Every value of the table is an actual controller (no `None` entry).
This holds in every state the module can reach, since line 141 only ever
stores freshly constructed controllers and line 179 removes entries. -/
abbrev allSome (tbl : Table) : Prop := ∀ e ∈ tbl, e.2.isSome = true

/-- Python's `str.lower()` on the ASCII platform strings involved. -/
def pyLower (s : String) : String := String.mk (s.data.map Char.toLower)

/-- The numeric value of a string of decimal digit characters, as
`int(...)` computes it at line 48. -/
def digitsToNat (l : List Char) : Nat :=
  l.foldl (fun acc c => acc * 10 + (c.toNat - 48)) 0

/-- Model of the regular expression test at line 45,
`re.match('darwin-(\d+)\..*', s)` on an already-lowercased string `s`:
the match succeeds iff `s` starts with `darwin-`, then one or more
digits, then a literal dot; the result is the captured major version. -/
def darwinMatch (s : String) : Option Nat :=
  match s.data with
  | 'd' :: 'a' :: 'r' :: 'w' :: 'i' :: 'n' :: '-' :: rest =>
      let digits := rest.takeWhile Char.isDigit
      let after := rest.drop digits.length
      if digits ≠ [] ∧ after.head? = some '.' then
        some (digitsToNat digits)
      else none
  | _ => none

/-- The value the name `STARTUP_WITH_SHELL_OFF` holds after the module
body at lines 45-51 ran on the given `platform.platform()` string:
`some false` when the platform is not darwin-like, `some true` on darwin
with major version 16 or higher, and `none` — the name was never
assigned, so reading it raises NameError — on darwin with major version
below 16, because the `if`/`elif` chain has no final `else`. -/
def computeStartupWithShellOff (platformStr : String) : Option Bool :=
  match darwinMatch (pyLower platformStr) with
  | none => some false
  | some major => if 16 ≤ major then some true else none

/-- Lines 130-133: `gdb_args` is bound to (an alias of) one of the two
module-level default lists. -/
def selectArgs (cfg : Config) (st : ServerState) : List String :=
  if cfg.lldb then st.defaultLldbArgs else st.defaultGdbArgs

/-- Line 139: `gdb_args.append(...)` when the shell-off flag is truthy.
Because `gdb_args` aliases the module-level list chosen at lines 130-133,
the append mutates that module-level list in place. -/
def appendShellOff (cfg : Config) (flagOn : Bool) (st : ServerState) : ServerState :=
  if flagOn then
    if cfg.lldb then { st with defaultLldbArgs := st.defaultLldbArgs ++ [shellOffArg] }
    else { st with defaultGdbArgs := st.defaultGdbArgs ++ [shellOffArg] }
  else st

/-- The argument list `gdb_args` holds at line 141, i.e. when it is
passed to the `GdbController` constructor: the (possibly just mutated)
module-level list. -/
def spawnedArgsOf (cfg : Config) (flagOn : Bool) (st : ServerState) : List String :=
  selectArgs cfg (appendShellOff cfg flagOn st)

/-- Line 141: construct the controller and store it under `request.sid`.
The new process gets a fresh pid and starts with an empty response
queue. -/
def insertController (sid : Sid) (cfg : Config) (flagOn : Bool) (st : ServerState) :
    ServerState :=
  let st1 := appendShellOff cfg flagOn st
  { st1 with
    gdbControllers := st1.gdbControllers ++
      [(sid, some { pid := st1.nextPid, args := spawnedArgsOf cfg flagOn st,
                    pending := [], closed := false, writeFails := none })],
    nextPid := st1.nextPid + 1 }

/-- Lines 143-149: emit `gdb_pid` for the connection's controller
(`_gdb_state['gdb_controllers'][request.sid].gdb_process.pid`), then
start the single reader thread if `_gdb_state['gdb_reader_thread']` is
still `None`.  Under eventlet's cooperative scheduling the check at line
147 and the assignment at line 148 contain no yield point, so the pair is
one atomic step.  A `None` table value would make the attribute access at
line 144 raise AttributeError; an absent key would raise KeyError. -/
def emitPidAndEnsureReader (sid : Sid) (st : ServerState)
    (spawned : Option (List String)) : HResult :=
  match tableGet st.gdbControllers sid with
  | some (some p) =>
      let st' :=
        if st.gdbReaderThread.isNone then
          { st with gdbReaderThread := some (),
                    readerStartCount := st.readerStartCount + 1 }
        else st
      { state := st', events := [Event.gdbPid sid p.pid],
        spawnedArgs := spawned, exn := none }
  | some none =>
      { state := st, events := [], spawnedArgs := spawned,
        exn := some Exn.attributeError }
  | none =>
      { state := st, events := [], spawnedArgs := spawned,
        exn := some Exn.keyError }

/-- The `connect` handler, lines 123-149.  `spawnFails` is the
environment's choice of whether the `GdbController` constructor raises
(executable missing, permission denied).  When `cfg.startupWithShellOff`
is `none`, reading the name at line 135 raises NameError before any spawn
is attempted. -/
def client_connected (cfg : Config) (spawnFails : Bool) (sid : Sid)
    (st : ServerState) : HResult :=
  if (tableGet st.gdbControllers sid).isNone then
    match cfg.startupWithShellOff with
    | none =>
        { state := st, events := [], spawnedArgs := none,
          exn := some Exn.nameError }
    | some flagOn =>
        if spawnFails then
          { state := appendShellOff cfg flagOn st, events := [],
            spawnedArgs := some (spawnedArgsOf cfg flagOn st),
            exn := some Exn.spawnError }
        else
          emitPidAndEnsureReader sid (insertController sid cfg flagOn st)
            (some (spawnedArgsOf cfg flagOn st))
  else
    emitPidAndEnsureReader sid st none

/-- The `run_gdb_command` handler, lines 152-169.  A present controller
gets the command written to it (fire-and-forget); a synchronous write
failure is caught and reported as `error_running_gdb_command` with the
exception's message; an absent (or `None`) controller yields exactly the
`error_running_gdb_command` event with message `'gdb is not running'`. -/
def run_gdb_command (sid : Sid) (_cmd : String) (st : ServerState) : HResult :=
  match tableGet st.gdbControllers sid with
  | some (some p) =>
      match p.writeFails with
      | some msg =>
          { state := st, events := [Event.errorRunningGdbCommand sid msg],
            spawnedArgs := none, exn := none }
      | none =>
          { state := st, events := [], spawnedArgs := none, exn := none }
  | _ =>
      { state := st,
        events := [Event.errorRunningGdbCommand sid "gdb is not running"],
        spawnedArgs := none, exn := none }

/-- The `disconnect` handler, lines 172-179: if the sid owns a session,
call `.exit()` on its controller (which per the spec's collaborator
contract `terminate(handle) -> ()` always succeeds; the terminated pid is
recorded) and pop the entry; otherwise do nothing.  A `None` value would
make the `.gdb_process.pid` access in the line-177 argument raise
AttributeError. -/
def client_disconnected (sid : Sid) (st : ServerState) : HResult :=
  match tableGet st.gdbControllers sid with
  | some (some p) =>
      { state := { st with
                     gdbControllers := removeKey st.gdbControllers sid,
                     terminatedPids := st.terminatedPids ++ [p.pid] },
        events := [], spawnedArgs := none, exn := none }
  | some none =>
      { state := st, events := [], spawnedArgs := none,
        exn := some Exn.attributeError }
  | none =>
      { state := st, events := [], spawnedArgs := none, exn := none }

/-- `gdb.get_gdb_response(timeout_sec=0, raise_error_on_timeout=False)`
at line 196, at the spec's collaborator contract: a closed handle raises;
otherwise the call returns the next queued parsed record, if any, without
blocking. -/
def GdbProc.get_gdb_response (p : GdbProc) :
    Except Exn (Option Record × GdbProc) :=
  if p.closed then Except.error Exn.pollError
  else
    match p.pending with
    | [] => Except.ok (none, p)
    | r :: rest => Except.ok (some r, { p with pending := rest })

/-- The body of the `try` block at lines 195-206 for one table entry:
poll the controller and emit the record (if any) to the entry's room, or
`break` out of the for loop when the controller is `None` (line 206).
An `Except.error` is an exception escaping the `try` body. -/
def read_session_body (sid : Sid) (g : Option GdbProc) :
    Except Exn (List Event × Option GdbProc × Bool) :=
  match g with
  | some p =>
      match p.get_gdb_response with
      | Except.error e => Except.error e
      | Except.ok (some r, p') =>
          Except.ok ([Event.gdbResponse sid r], some p', false)
      | Except.ok (none, p') => Except.ok ([], some p', false)
  | none => Except.ok ([], none, true)

/-- Lines 194-209: the `try` body wrapped in `except Exception` — any
exception raised while polling this one session is logged (`dbprint`) and
swallowed, and the loop moves on to the next session. -/
def read_session_guarded (sid : Sid) (g : Option GdbProc) :
    List Event × Option GdbProc × Bool :=
  match read_session_body sid g with
  | Except.error _ => ([], g, false)
  | Except.ok r => r

/-- Result of running the for loop at lines 193-209 over a list of
entries: events emitted in order, the updated entries (an entry's
controller is mutated in place by the poll), and whether the loop ended
with `break`. -/
structure TickResult where
  events : List Event
  entries : Table
  broke : Bool
  deriving DecidableEq

/-- Run the for-loop body over the given entries in order; on `break` the
remaining entries are left unvisited (and unchanged). -/
def runEntries : Table → TickResult
  | [] => { events := [], entries := [], broke := false }
  | (sid, g) :: rest =>
      let r0 := read_session_guarded sid g
      if r0.2.2 then
        { events := r0.1, entries := (sid, r0.2.1) :: rest, broke := true }
      else
        let r := runEntries rest
        { events := r0.1 ++ r.events, entries := (sid, r0.2.1) :: r.entries,
          broke := r.broke }

/-- One tick of `read_and_forward_gdb_output` (one pass of the for loop
at line 193) with no concurrent table mutation: the events emitted and
the updated table. -/
def read_and_forward_tick (tbl : Table) : List Event × Table :=
  let r := runEntries tbl
  (r.events, r.entries)

/-- The dispatcher loop `read_and_forward_gdb_output` (lines 187-209) run
for `n` ticks with no concurrent table mutation, accumulating the emitted
events in order. -/
def read_and_forward_gdb_output : Nat → Table → List Event × Table
  | 0, tbl => ([], tbl)
  | n + 1, tbl =>
      let t1 := read_and_forward_tick tbl
      let t2 := read_and_forward_gdb_output n t1.2
      (t1.1 ++ t2.1, t2.2)

/-- A mutation of the controllers dict performed concurrently by another
handler: a disconnect (`pop`) or a connect (insert). -/
inductive TableMut where
  | noMut
  | remove (sid : Sid)
  | insert (sid : Sid) (p : GdbProc)
  deriving DecidableEq

/-- Apply a concurrent mutation to the live table. -/
def applyMut : TableMut → Table → Table
  | TableMut.noMut, tbl => tbl
  | TableMut.remove sid, tbl => removeKey tbl sid
  | TableMut.insert sid p, tbl =>
      if (tableGet tbl sid).isSome then
        tbl.map (fun e => if e.1 = sid then (e.1, some p) else e)
      else tbl ++ [(sid, some p)]

/-- One dispatcher tick with a concurrent table mutation interleaved
after the first `k` entries have been processed, under CPython 3 dict
semantics: the loop at line 193 iterates the live `d.items()` view, and
if the mutation changed the dict's size while the iterator is still
active, the iterator's next step raises
`RuntimeError: dictionary changed size during iteration`.  That raise
happens at the `for` statement itself — outside the per-session
`try`/`except` at lines 194-209 — so nothing in
`read_and_forward_gdb_output` catches it and the dispatcher task dies. -/
def read_and_forward_tick_interleaved (tbl : Table) (k : Nat) (m : TableMut) :
    Except Exn (List Event × Table) :=
  let r1 := runEntries (tbl.take k)
  if r1.broke ∨ tbl.length ≤ k then
    Except.ok (r1.events, applyMut m (r1.entries ++ tbl.drop k))
  else
    let tblNow := r1.entries ++ tbl.drop k
    let tbl2 := applyMut m tblNow
    if tbl2.length = tblNow.length then
      let r2 := runEntries (tbl2.drop k)
      Except.ok (r1.events ++ r2.events, tbl2.take k ++ r2.entries)
    else
      Except.error Exn.runtimeError

/-- An inbound event delivered by the transport, plus the dispatcher's
tick, for whole-run reasoning.  Under eventlet each handler's
state-mutating steps contain no yield point between the reads and writes
relevant to the claims below, so handlers are modelled as atomic. -/
inductive InEvent where
  | connect (sid : Sid) (spawnFails : Bool)
  | disconnect (sid : Sid)
  | runCmd (sid : Sid) (cmd : String)
  | tick
  deriving DecidableEq

/-- The state transition each inbound event performs. -/
def applyInEvent (cfg : Config) (st : ServerState) : InEvent → ServerState
  | InEvent.connect sid f => (client_connected cfg f sid st).state
  | InEvent.disconnect sid => (client_disconnected sid st).state
  | InEvent.runCmd sid cmd => (run_gdb_command sid cmd st).state
  | InEvent.tick =>
      { st with gdbControllers := (read_and_forward_tick st.gdbControllers).2 }

/-- Run a sequence of inbound events from a starting state. -/
def runInEvents (cfg : Config) (evs : List InEvent) (st : ServerState) :
    ServerState :=
  evs.foldl (applyInEvent cfg) st

/-- The records addressed to `sid`, in emission order. -/
def recordsFor (sid : Sid) : List Event → List Record
  | [] => []
  | Event.gdbResponse s r :: rest =>
      if s = sid then r :: recordsFor sid rest else recordsFor sid rest
  | _ :: rest => recordsFor sid rest

/-- What one poll does to a controller: a closed handle is untouched (the
raise was swallowed), otherwise the head of the queue is consumed. -/
def pollStep (p : GdbProc) : GdbProc :=
  if p.closed then p else { p with pending := p.pending.tail }

/-- The events one tick emits for one live controller: nothing when the
poll raises, else the head of its queue (if any) forwarded to its room. -/
def sessionEvents (sid : Sid) (p : GdbProc) : List Event :=
  if p.closed then [] else (p.pending.take 1).map (Event.gdbResponse sid)

/-- The per-entry controller update a tick performs on the whole table. -/
def tickEntries (tbl : Table) : Table :=
  tbl.map (fun e => (e.1, e.2.map pollStep))

/-- The events a tick emits over the whole table, in iteration order. -/
def tickEvents : Table → List Event
  | [] => []
  | (sid, g) :: rest =>
      (match g with
       | some p => sessionEvents sid p
       | none => []) ++ tickEvents rest

/-- Invariant tying the ghost start counter to the reader-thread slot:
`start_background_task` has been called exactly once iff the slot is
filled. -/
def ReaderInv (st : ServerState) : Prop :=
  st.readerStartCount = if st.gdbReaderThread.isSome then 1 else 0

/-- A freshly spawned idle controller, used as a concrete test fixture. -/
def procIdle : GdbProc :=
  { pid := 1, args := [], pending := [], closed := false, writeFails := none }

/-- A healthy controller with two queued records, used as a concrete test
fixture. -/
def procW : GdbProc :=
  { pid := 2, args := [], pending := [10, 20], closed := false, writeFails := none }

/-- A controller whose process handle is dead, so polling it raises. -/
def procFault : GdbProc :=
  { pid := 3, args := [], pending := [9], closed := true, writeFails := none }

/-- Configuration of a server on a non-darwin platform (flag assigned
`False`). -/
def cfgPlain : Config :=
  { lldb := false, gdbPath := "gdb", startupWithShellOff := some false }

/-- Configuration of a server on darwin 16+ (flag assigned `True`). -/
def cfgSierra : Config :=
  { lldb := false, gdbPath := "gdb", startupWithShellOff := some true }

/-- A state with one live session for connection "a". -/
def stDisc : ServerState :=
  { initialState with gdbControllers := [("a", some procW)] }

/-! ## Helper lemmas about the table operations -/

theorem keysOf_cons (s : Sid) (g : Option GdbProc) (rest : Table) :
    keysOf ((s, g) :: rest) = s :: keysOf rest := rfl

theorem tableGet_append_self (tbl : Table) (sid : Sid) (v : Option GdbProc)
    (h : tableGet tbl sid = none) : tableGet (tbl ++ [(sid, v)]) sid = some v := by
  induction tbl with
  | nil => simp [tableGet]
  | cons e rest ih =>
      obtain ⟨s, g⟩ := e
      by_cases hs : s = sid
      · simp [tableGet, hs] at h
      · rw [tableGet] at h
        simp only [hs, if_false] at h
        simpa [tableGet, hs] using ih h

theorem tableGet_removeKey_self (tbl : Table) (sid : Sid) :
    tableGet (removeKey tbl sid) sid = none := by
  induction tbl with
  | nil => simp [removeKey, tableGet]
  | cons e rest ih =>
      obtain ⟨s, g⟩ := e
      by_cases hs : s = sid
      · simpa [removeKey, hs] using ih
      · simpa [removeKey, tableGet, hs] using ih

theorem removeKey_subset (tbl : Table) (sid : Sid) :
    ∀ e ∈ removeKey tbl sid, e ∈ tbl := by
  induction tbl with
  | nil => intro e he; cases he
  | cons x rest ih =>
      obtain ⟨s, g⟩ := x
      intro e he
      by_cases hs : s = sid
      · rw [removeKey] at he
        simp only [hs, if_true] at he
        exact List.mem_cons_of_mem _ (ih e he)
      · rw [removeKey] at he
        simp only [hs, if_false] at he
        rcases List.mem_cons.mp he with h | h
        · exact h ▸ List.mem_cons_self _ _
        · exact List.mem_cons_of_mem _ (ih e h)

/-! ## Helper lemmas about one dispatcher tick -/

theorem read_session_guarded_some (sid : Sid) (p : GdbProc) :
    read_session_guarded sid (some p) =
      (sessionEvents sid p, some (pollStep p), false) := by
  obtain ⟨pid, args, pending, closed, wf⟩ := p
  cases closed <;> cases pending <;> rfl

theorem runEntries_allSome (tbl : Table) (h : allSome tbl) :
    runEntries tbl =
      { events := tickEvents tbl, entries := tickEntries tbl, broke := false } := by
  induction tbl with
  | nil => rfl
  | cons e rest ih =>
      obtain ⟨sid, g⟩ := e
      have hg : g.isSome = true := h (sid, g) (List.mem_cons_self _ _)
      obtain ⟨p, rfl⟩ := Option.isSome_iff_exists.mp hg
      have hrest : allSome rest := fun x hx => h x (List.mem_cons_of_mem _ hx)
      simp [runEntries, read_session_guarded_some, ih hrest, tickEvents, tickEntries]

theorem read_and_forward_tick_allSome (tbl : Table) (h : allSome tbl) :
    read_and_forward_tick tbl = (tickEvents tbl, tickEntries tbl) := by
  simp [read_and_forward_tick, runEntries_allSome tbl h]

theorem keysOf_tickEntries (tbl : Table) : keysOf (tickEntries tbl) = keysOf tbl := by
  simp [keysOf, tickEntries, List.map_map]

theorem allSome_tickEntries (tbl : Table) (h : allSome tbl) :
    allSome (tickEntries tbl) := by
  intro e he
  rw [tickEntries, List.mem_map] at he
  obtain ⟨x, hx, rfl⟩ := he
  have hx2 := h x hx
  cases hv : x.2 with
  | none => rw [hv] at hx2; cases hx2
  | some q => simp [hv]

theorem mem_tickEntries (tbl : Table) (sid : Sid) (p : GdbProc)
    (h : (sid, some p) ∈ tbl) : (sid, some (pollStep p)) ∈ tickEntries tbl := by
  rw [tickEntries, List.mem_map]
  exact ⟨(sid, some p), h, rfl⟩

/-! ## Helper lemmas about event attribution -/

theorem recordsFor_append (sid : Sid) (l1 l2 : List Event) :
    recordsFor sid (l1 ++ l2) = recordsFor sid l1 ++ recordsFor sid l2 := by
  induction l1 with
  | nil => rfl
  | cons e rest ih =>
      cases e with
      | gdbPid s n => simpa [recordsFor] using ih
      | errorRunningGdbCommand s m => simpa [recordsFor] using ih
      | gdbResponse s r =>
          simp only [List.cons_append, recordsFor]
          split <;> simp [ih]

theorem recordsFor_sessionEvents_self (sid : Sid) (p : GdbProc)
    (h : p.closed = false) :
    recordsFor sid (sessionEvents sid p) = p.pending.take 1 := by
  cases hp : p.pending <;> simp [sessionEvents, h, recordsFor, hp]

theorem recordsFor_sessionEvents_ne (sid s : Sid) (p : GdbProc) (h : s ≠ sid) :
    recordsFor sid (sessionEvents s p) = [] := by
  cases hc : p.closed <;> cases hp : p.pending <;>
    simp [sessionEvents, recordsFor, hc, hp, h]

theorem recordsFor_tickEvents_not_mem (sid : Sid) (tbl : Table)
    (h : sid ∉ keysOf tbl) : recordsFor sid (tickEvents tbl) = [] := by
  induction tbl with
  | nil => rfl
  | cons e rest ih =>
      obtain ⟨s, g⟩ := e
      rw [keysOf_cons] at h
      have hs : s ≠ sid := fun heq => h (heq ▸ List.mem_cons_self _ _)
      have hrest : sid ∉ keysOf rest := fun hm => h (List.mem_cons_of_mem _ hm)
      cases g with
      | none => simpa [tickEvents, recordsFor] using ih hrest
      | some p =>
          simp [tickEvents, recordsFor_append,
                recordsFor_sessionEvents_ne sid s p hs, ih hrest]

theorem recordsFor_tickEvents (tbl : Table) (sid : Sid) (p : GdbProc)
    (hNd : (keysOf tbl).Nodup) (hmem : (sid, some p) ∈ tbl)
    (hcl : p.closed = false) :
    recordsFor sid (tickEvents tbl) = p.pending.take 1 := by
  induction tbl with
  | nil => cases hmem
  | cons e rest ih =>
      obtain ⟨s, g⟩ := e
      rw [keysOf_cons] at hNd
      rcases List.nodup_cons.mp hNd with ⟨hsnot, hndrest⟩
      rcases List.mem_cons.mp hmem with hhead | htail
      · injection hhead with h1 h2
        subst h1
        subst h2
        simp [tickEvents, recordsFor_append,
              recordsFor_sessionEvents_self sid p hcl,
              recordsFor_tickEvents_not_mem sid rest hsnot]
      · have hsidmem : sid ∈ keysOf rest := by
          rw [keysOf, List.mem_map]
          exact ⟨(sid, some p), htail, rfl⟩
        have hs : s ≠ sid := fun heq => hsnot (heq ▸ hsidmem)
        cases g with
        | none => simpa [tickEvents, recordsFor] using ih hndrest htail
        | some q =>
            simp [tickEvents, recordsFor_append,
                  recordsFor_sessionEvents_ne sid s q hs, ih hndrest htail]

/-! ## Helper lemmas about the handlers' effect on individual state fields -/

theorem appendShellOff_reader (cfg : Config) (flagOn : Bool) (st : ServerState) :
    (appendShellOff cfg flagOn st).gdbReaderThread = st.gdbReaderThread ∧
    (appendShellOff cfg flagOn st).readerStartCount = st.readerStartCount := by
  unfold appendShellOff
  split
  · split <;> exact ⟨rfl, rfl⟩
  · exact ⟨rfl, rfl⟩

theorem appendShellOff_controllers (cfg : Config) (flagOn : Bool) (st : ServerState) :
    (appendShellOff cfg flagOn st).gdbControllers = st.gdbControllers := by
  unfold appendShellOff
  split
  · split <;> rfl
  · rfl

theorem insertController_reader (sid : Sid) (cfg : Config) (flagOn : Bool)
    (st : ServerState) :
    (insertController sid cfg flagOn st).gdbReaderThread = st.gdbReaderThread ∧
    (insertController sid cfg flagOn st).readerStartCount = st.readerStartCount := by
  unfold insertController
  exact appendShellOff_reader cfg flagOn st

theorem insertController_get (sid : Sid) (cfg : Config) (flagOn : Bool)
    (st : ServerState) (habs : tableGet st.gdbControllers sid = none) :
    tableGet (insertController sid cfg flagOn st).gdbControllers sid =
      some (some { pid := (appendShellOff cfg flagOn st).nextPid,
                   args := spawnedArgsOf cfg flagOn st,
                   pending := [], closed := false, writeFails := none }) := by
  unfold insertController
  apply tableGet_append_self
  rw [appendShellOff_controllers]
  exact habs

theorem emitPid_found (sid : Sid) (st : ServerState) (sp : Option (List String))
    (p : GdbProc) (h : tableGet st.gdbControllers sid = some (some p)) :
    (emitPidAndEnsureReader sid st sp).events = [Event.gdbPid sid p.pid]
    ∧ (emitPidAndEnsureReader sid st sp).exn = none
    ∧ (emitPidAndEnsureReader sid st sp).state.gdbControllers = st.gdbControllers
    ∧ (emitPidAndEnsureReader sid st sp).spawnedArgs = sp := by
  unfold emitPidAndEnsureReader
  rw [h]
  refine ⟨rfl, rfl, ?_, rfl⟩
  dsimp only
  split <;> rfl

theorem emitPid_controllers (sid : Sid) (st : ServerState)
    (sp : Option (List String)) :
    (emitPidAndEnsureReader sid st sp).state.gdbControllers = st.gdbControllers := by
  unfold emitPidAndEnsureReader
  split
  · dsimp only
    split <;> rfl
  · rfl
  · rfl

theorem emitPid_inv (sid : Sid) (st : ServerState) (sp : Option (List String))
    (h : ReaderInv st) : ReaderInv (emitPidAndEnsureReader sid st sp).state := by
  unfold emitPidAndEnsureReader
  split
  · dsimp only
    split
    · rename_i hnone
      unfold ReaderInv at h ⊢
      rw [Option.isNone_iff_eq_none] at hnone
      simp [hnone] at h
      simp [h]
    · exact h
  · exact h
  · exact h

theorem run_gdb_command_state (sid : Sid) (cmd : String) (st : ServerState) :
    (run_gdb_command sid cmd st).state = st := by
  unfold run_gdb_command
  split
  · split <;> rfl
  · rfl

theorem client_disconnected_inv (sid : Sid) (st : ServerState)
    (h : ReaderInv st) : ReaderInv (client_disconnected sid st).state := by
  unfold client_disconnected
  split <;> simp_all [ReaderInv]

theorem client_connected_inv (cfg : Config) (f : Bool) (sid : Sid)
    (st : ServerState) (h : ReaderInv st) :
    ReaderInv (client_connected cfg f sid st).state := by
  unfold client_connected
  split
  · split
    · exact h
    · rename_i flagOn heq
      split
      · unfold ReaderInv at h ⊢
        rcases appendShellOff_reader cfg flagOn st with ⟨h1, h2⟩
        dsimp only
        rw [h1, h2]
        exact h
      · apply emitPid_inv
        unfold ReaderInv at h ⊢
        rcases insertController_reader sid cfg flagOn st with ⟨h1, h2⟩
        rw [h1, h2]
        exact h
  · exact emitPid_inv sid st none h

theorem applyInEvent_inv (cfg : Config) (st : ServerState) (ev : InEvent)
    (h : ReaderInv st) : ReaderInv (applyInEvent cfg st ev) := by
  cases ev with
  | connect sid f => exact client_connected_inv cfg f sid st h
  | disconnect sid => exact client_disconnected_inv sid st h
  | runCmd sid cmd => rw [applyInEvent, run_gdb_command_state]; exact h
  | tick => exact h

theorem runInEvents_inv (cfg : Config) (evs : List InEvent) (st : ServerState)
    (h : ReaderInv st) : ReaderInv (runInEvents cfg evs st) := by
  induction evs generalizing st with
  | nil => exact h
  | cons ev rest ih => exact ih _ (applyInEvent_inv cfg st ev h)

/-! ## The table never holds a `None` controller in any reachable state -/

theorem allSome_append_singleton (tbl : Table) (sid : Sid) (p : GdbProc)
    (h : allSome tbl) : allSome (tbl ++ [(sid, some p)]) := by
  intro e he
  rcases List.mem_append.mp he with h1 | h1
  · exact h e h1
  · simp only [List.mem_singleton] at h1
    subst h1
    rfl

theorem allSome_removeKey (tbl : Table) (sid : Sid) (h : allSome tbl) :
    allSome (removeKey tbl sid) :=
  fun e he => h e (removeKey_subset tbl sid e he)

theorem client_connected_allSome (cfg : Config) (f : Bool) (sid : Sid)
    (st : ServerState) (h : allSome st.gdbControllers) :
    allSome (client_connected cfg f sid st).state.gdbControllers := by
  unfold client_connected
  split
  · split
    · exact h
    · rename_i flagOn heq
      split
      · dsimp only
        rw [appendShellOff_controllers]
        exact h
      · rw [emitPid_controllers]
        unfold insertController
        dsimp only
        apply allSome_append_singleton
        rw [appendShellOff_controllers]
        exact h
  · rw [emitPid_controllers]
    exact h

theorem client_disconnected_allSome (sid : Sid) (st : ServerState)
    (h : allSome st.gdbControllers) :
    allSome (client_disconnected sid st).state.gdbControllers := by
  unfold client_disconnected
  split
  · exact allSome_removeKey _ _ h
  · exact h
  · exact h

theorem applyInEvent_allSome (cfg : Config) (st : ServerState) (ev : InEvent)
    (h : allSome st.gdbControllers) :
    allSome (applyInEvent cfg st ev).gdbControllers := by
  cases ev with
  | connect sid f => exact client_connected_allSome cfg f sid st h
  | disconnect sid => exact client_disconnected_allSome sid st h
  | runCmd sid cmd => rw [applyInEvent, run_gdb_command_state]; exact h
  | tick =>
      show allSome (read_and_forward_tick st.gdbControllers).2
      rw [read_and_forward_tick_allSome _ h]
      exact allSome_tickEntries _ h

theorem runInEvents_allSome (cfg : Config) (evs : List InEvent) (st : ServerState)
    (h : allSome st.gdbControllers) :
    allSome (runInEvents cfg evs st).gdbControllers := by
  induction evs generalizing st with
  | nil => exact h
  | cons ev rest ih => exact ih _ (applyInEvent_allSome cfg st ev h)

/-- Every state the module can reach from import time has only real
controllers in the table, so the `gdb is None` / `break` branch at lines
203-206 of the dispatcher is dead code. -/
theorem allSome_reachable (cfg : Config) (evs : List InEvent) :
    allSome (runInEvents cfg evs initialState).gdbControllers :=
  runInEvents_allSome cfg evs initialState (fun e he => by cases he)

/-! ## The claims -/

/-- C1: the claim says the dispatcher tick iterates a stable snapshot of
(connectionId, process) pairs, so a session removed mid-tick is only
skipped and never crashes the loop.  The code instead iterates the live
`_gdb_state['gdb_controllers'].items()` view (line 193); under CPython 3
a concurrent removal changes the dict's size and makes the iterator's
next step raise `RuntimeError`, at the `for` statement — outside the
per-session `try` at lines 194-209 — so the dispatcher task dies.
Concretely: with sessions "a" and "b", removing "a" after the loop has
serviced "a" makes the tick end in an uncaught `RuntimeError` (first
conjunct), whereas the snapshot behaviour the claim promises would have
delivered "b"'s queued record (second conjunct). -/
theorem c1_live_dict_iteration_crashes :
    read_and_forward_tick_interleaved [("a", some procIdle), ("b", some procW)] 1
        (TableMut.remove "a") = Except.error Exn.runtimeError
    ∧ (read_and_forward_tick [("b", some procW)]).1 = [Event.gdbResponse "b" 10] :=
  ⟨rfl, rfl⟩

/-- C2: within one dispatcher tick over a fixed table (every value a real
controller, keys unique), a poll fault on one session is a genuine
exception (first conjunct), is caught by the per-session `except` and
swallowed without breaking out of the loop (second conjunct), and does
not prevent a healthy session elsewhere in the same table from having its
available response delivered in that same tick (third conjunct). -/
theorem c2_poll_fault_isolated (sidA : Sid) (pA : GdbProc) (hA : pA.closed = true)
    (tbl : Table) (sidB : Sid) (pB : GdbProc) (r : Record) (rs : List Record)
    (hAll : allSome tbl) (hNd : (keysOf tbl).Nodup)
    (hmem : (sidB, some pB) ∈ tbl) (hB : pB.closed = false)
    (hpend : pB.pending = r :: rs) :
    pA.get_gdb_response = Except.error Exn.pollError
    ∧ read_session_guarded sidA (some pA) = ([], some pA, false)
    ∧ recordsFor sidB (read_and_forward_tick tbl).1 = [r] := by
  refine ⟨?_, ?_, ?_⟩
  · simp [GdbProc.get_gdb_response, hA]
  · simp [read_session_guarded, read_session_body, GdbProc.get_gdb_response, hA]
  · have h := recordsFor_tickEvents tbl sidB pB hNd hmem hB
    rw [read_and_forward_tick_allSome tbl hAll]
    rw [h, hpend]
    rfl

/-- Witness for C2 at a concrete two-session table whose first session's
poll raises. -/
theorem c2_witness :
    procFault.get_gdb_response = Except.error Exn.pollError
    ∧ read_session_guarded "a" (some procFault) = ([], some procFault, false)
    ∧ recordsFor "b"
        (read_and_forward_tick [("a", some procFault), ("b", some procW)]).1
        = [10] :=
  c2_poll_fault_isolated "a" procFault rfl
    [("a", some procFault), ("b", some procW)] "b" procW 10 [20]
    (by decide) (by decide) (by decide) rfl rfl

/-- C3: over any number of dispatcher ticks, the records forwarded to a
session's room are exactly the prefix of that process's emission queue,
one `gdb_response` event per record, in the order the process emitted
them (FIFO per connection); each record is forwarded in the tick in which
it is read. -/
theorem c3_fifo_per_connection (n : Nat) (tbl : Table) (sid : Sid) (p : GdbProc)
    (hAll : allSome tbl) (hNd : (keysOf tbl).Nodup)
    (hmem : (sid, some p) ∈ tbl) (hcl : p.closed = false) :
    recordsFor sid (read_and_forward_gdb_output n tbl).1 = p.pending.take n := by
  induction n generalizing tbl p with
  | zero => rfl
  | succ n ih =>
      have htick := read_and_forward_tick_allSome tbl hAll
      have h1 := recordsFor_tickEvents tbl sid p hNd hmem hcl
      have hclps : (pollStep p).closed = false := by simp [pollStep, hcl]
      have hps : (pollStep p).pending = p.pending.tail := by simp [pollStep, hcl]
      have hstep := ih (tickEntries tbl) (pollStep p)
        (allSome_tickEntries tbl hAll)
        (by rw [keysOf_tickEntries]; exact hNd)
        (mem_tickEntries tbl sid p hmem)
        hclps
      rw [read_and_forward_gdb_output]
      dsimp only
      rw [htick]
      dsimp only
      rw [recordsFor_append, h1, hstep, hps]
      cases hpp : p.pending <;> simp

/-- Witness for C3: three ticks over a one-session table with two queued
records deliver exactly those two records in order. -/
theorem c3_witness :
    recordsFor "a" (read_and_forward_gdb_output 3 [("a", some procW)]).1
      = [10, 20] := by
  have h := c3_fifo_per_connection 3 [("a", some procW)] "a" procW
    (by decide) (by decide) (by decide) rfl
  simpa using h

/-- C4: along any sequence of inbound events (connects — spawning or
failing —, disconnects, commands and dispatcher ticks) from the fresh
server state, the number of `start_background_task` calls never exceeds
one: the guard at lines 147-148, atomic under eventlet's cooperative
scheduling because it contains no yield point, gives the reader thread
single-flight start semantics. -/
theorem c4_dispatcher_started_at_most_once (cfg : Config) (evs : List InEvent) :
    (runInEvents cfg evs initialState).readerStartCount ≤ 1 := by
  have h := runInEvents_inv cfg evs initialState rfl
  unfold ReaderInv at h
  rw [h]
  split <;> simp

/-- C5: the claim says the startup argument set is fixed, selected once,
and never mutated by handling a connect.  The code violates this when
`STARTUP_WITH_SHELL_OFF` is truthy (darwin 16+): `gdb_args` at line 133
aliases the module-level `DEFAULT_GDB_ARGS` list and line 139 appends to
it in place, so the first connect spawns with one copy of the shell-off
flag and the second connect spawns with two — the argument lists passed
to the two spawns differ. -/
theorem c5_connect_mutates_default_args :
    (client_connected cfgSierra false "a" initialState).spawnedArgs
        = some (DEFAULT_GDB_ARGS ++ [shellOffArg])
    ∧ (client_connected cfgSierra false "b"
        (client_connected cfgSierra false "a" initialState).state).spawnedArgs
        = some (DEFAULT_GDB_ARGS ++ [shellOffArg, shellOffArg])
    ∧ (client_connected cfgSierra false "a" initialState).spawnedArgs
        ≠ (client_connected cfgSierra false "b"
            (client_connected cfgSierra false "a" initialState).state).spawnedArgs := by
  have h1 : (client_connected cfgSierra false "a" initialState).spawnedArgs
      = some (DEFAULT_GDB_ARGS ++ [shellOffArg]) := rfl
  have h2 : (client_connected cfgSierra false "b"
      (client_connected cfgSierra false "a" initialState).state).spawnedArgs
      = some (DEFAULT_GDB_ARGS ++ [shellOffArg, shellOffArg]) := rfl
  refine ⟨h1, h2, ?_⟩
  rw [h1, h2]
  intro hcontra
  injection hcontra with hlist
  have hlen : (DEFAULT_GDB_ARGS ++ [shellOffArg]).length
      = (DEFAULT_GDB_ARGS ++ [shellOffArg, shellOffArg]).length := by rw [hlist]
  simp [DEFAULT_GDB_ARGS] at hlen

/-- C6 counterexample: the claim says a spawn failure on connect emits an
error event to that connection.  At the concrete input — fresh server,
first connect for "a", constructor raises — the handler emits no event at
all: the exception simply escapes the handler (though, as the claim also
says, no session is inserted). -/
theorem c6_counterexample :
    (client_connected cfgPlain true "a" initialState).events = []
    ∧ (client_connected cfgPlain true "a" initialState).exn = some Exn.spawnError
    ∧ (client_connected cfgPlain true "a" initialState).state.gdbControllers = [] :=
  ⟨rfl, rfl, rfl⟩

/-- C6 (amended): when spawning the debugger process during a connect
fails, no session is inserted into the table — the failure is confined to
that connection — but no error event is emitted either: the exception
propagates uncaught out of the connect handler. -/
theorem c6_spawn_failure_no_session (cfg : Config) (b : Bool) (sid : Sid)
    (st : ServerState) (habs : tableGet st.gdbControllers sid = none)
    (hflag : cfg.startupWithShellOff = some b) :
    (client_connected cfg true sid st).state.gdbControllers = st.gdbControllers
    ∧ (client_connected cfg true sid st).events = []
    ∧ (client_connected cfg true sid st).exn = some Exn.spawnError := by
  have hfresh : (tableGet st.gdbControllers sid).isNone = true := by
    rw [habs]
    rfl
  refine ⟨?_, ?_, ?_⟩ <;>
    simp [client_connected, hfresh, hflag, appendShellOff_controllers]

/-- Witness for C6 (amended) at the fresh server state. -/
theorem c6_witness :
    (client_connected cfgPlain true "b" initialState).state.gdbControllers
        = initialState.gdbControllers
    ∧ (client_connected cfgPlain true "b" initialState).events = []
    ∧ (client_connected cfgPlain true "b" initialState).exn = some Exn.spawnError :=
  c6_spawn_failure_no_session cfgPlain false "b" initialState rfl rfl

/-- C7: a disconnect for a connectionId with no session is a no-op (first
conjunct); a disconnect for a live session terminates its process (the
pid is signalled; per the spec's collaborator contract
`terminate(handle) -> ()` termination does not fail), removes the entry
from the table, raises nothing, and leaves no session behind — so a
second disconnect for the same id falls into the no-op case (second
conjunct). -/
theorem c7_disconnect_terminates_and_removes (st : ServerState) (sid : Sid) :
    (tableGet st.gdbControllers sid = none →
      client_disconnected sid st =
        { state := st, events := [], spawnedArgs := none, exn := none })
    ∧ ∀ p, tableGet st.gdbControllers sid = some (some p) →
        (client_disconnected sid st).state.gdbControllers
            = removeKey st.gdbControllers sid
        ∧ p.pid ∈ (client_disconnected sid st).state.terminatedPids
        ∧ (client_disconnected sid st).exn = none
        ∧ tableGet (client_disconnected sid st).state.gdbControllers sid = none := by
  constructor
  · intro h
    simp [client_disconnected, h]
  · intro p h
    refine ⟨?_, ?_, ?_, ?_⟩ <;> simp [client_disconnected, h, tableGet_removeKey_self]

/-- Witness for C7: disconnecting the one live session "a" signals pid 2,
empties the table and leaves a second disconnect nothing to do. -/
theorem c7_witness :
    (client_disconnected "a" stDisc).state.gdbControllers
        = removeKey stDisc.gdbControllers "a"
    ∧ procW.pid ∈ (client_disconnected "a" stDisc).state.terminatedPids
    ∧ (client_disconnected "a" stDisc).exn = none
    ∧ tableGet (client_disconnected "a" stDisc).state.gdbControllers "a" = none :=
  (c7_disconnect_terminates_and_removes stDisc "a").2 procW rfl

/-- C8 counterexample: the claim names the event `error_running_command`
and the message "debugger is not running".  At the concrete input — a
command for "b" on a fresh server — the handler emits exactly one event,
but its wire name is `error_running_gdb_command` and its message is
`gdb is not running`, neither of which is the claimed literal. -/
theorem c8_counterexample :
    (run_gdb_command "b" "x" initialState).events
        = [Event.errorRunningGdbCommand "b" "gdb is not running"]
    ∧ Event.wireName (Event.errorRunningGdbCommand "b" "gdb is not running")
        = "error_running_gdb_command"
    ∧ "gdb is not running" ≠ "debugger is not running"
    ∧ "error_running_gdb_command" ≠ "error_running_command" :=
  ⟨rfl, rfl, by decide, by decide⟩

/-- C8 (amended): a command for a connectionId with no session emits
exactly one `error_running_gdb_command` event with message
`gdb is not running` to that connection, creates no session, changes no
state and raises nothing. -/
theorem c8_unknown_session_command (st : ServerState) (sid : Sid) (cmd : String)
    (habs : tableGet st.gdbControllers sid = none) :
    run_gdb_command sid cmd st =
      { state := st,
        events := [Event.errorRunningGdbCommand sid "gdb is not running"],
        spawnedArgs := none, exn := none } := by
  unfold run_gdb_command
  rw [habs]

/-- Witness for C8 (amended) at the fresh server state. -/
theorem c8_witness :
    run_gdb_command "b" "info registers" initialState =
      { state := initialState,
        events := [Event.errorRunningGdbCommand "b" "gdb is not running"],
        spawnedArgs := none, exn := none } :=
  c8_unknown_session_command initialState "b" "info registers" rfl

/-- C9: on a darwin platform whose matched major version is below 16, the
`if`/`elif` chain at lines 45-51 assigns `STARTUP_WITH_SHELL_OFF` in
neither branch, so the name stays unassigned; the first connect for a
fresh sid then raises an uncaught NameError at line 135 when reading the
flag, before any debugger process is spawned, emitting nothing and
leaving the state untouched. -/
theorem c9_darwin_pre16_name_error (s : String) (m : Nat) (sid : Sid) (f : Bool)
    (st : ServerState) (hm : darwinMatch (pyLower s) = some m) (hlt : m < 16)
    (habs : tableGet st.gdbControllers sid = none) :
    computeStartupWithShellOff s = none
    ∧ client_connected
        { lldb := false, gdbPath := "gdb",
          startupWithShellOff := computeStartupWithShellOff s } f sid st
      = { state := st, events := [], spawnedArgs := none,
          exn := some Exn.nameError } := by
  have hc : computeStartupWithShellOff s = none := by
    unfold computeStartupWithShellOff
    rw [hm]
    exact if_neg (Nat.not_le.mpr hlt)
  have hfresh : (tableGet st.gdbControllers sid).isNone = true := by
    rw [habs]
    rfl
  exact ⟨hc, by simp [client_connected, hfresh, hc]⟩

/-- Witness for C9 on the platform string of macOS El Capitan
(darwin major 15). -/
theorem c9_witness :
    computeStartupWithShellOff "Darwin-15.6.0-x86_64-i386-64bit" = none
    ∧ client_connected
        { lldb := false, gdbPath := "gdb",
          startupWithShellOff :=
            computeStartupWithShellOff "Darwin-15.6.0-x86_64-i386-64bit" }
        false "a" initialState
      = { state := initialState, events := [], spawnedArgs := none,
          exn := some Exn.nameError } :=
  c9_darwin_pre16_name_error "Darwin-15.6.0-x86_64-i386-64bit" 15 "a" false
    initialState (by decide) (by decide) rfl

/-- C10: every connect that completes without an exception emits exactly
one `gdb_pid` event to the connecting sid, carrying the pid of the
controller the table holds for that sid afterwards (first conjunct); in
particular a repeated connect for a sid that already owns a session —
which spawns nothing and changes no table entry — still emits the
`gdb_pid` event of the existing process, so it is not observationally a
no-op (second conjunct). -/
theorem c10_connect_always_emits_gdb_pid (cfg : Config) (f : Bool) (sid : Sid)
    (st : ServerState) :
    ((client_connected cfg f sid st).exn = none →
      ∃ q, tableGet (client_connected cfg f sid st).state.gdbControllers sid
              = some (some q)
         ∧ (client_connected cfg f sid st).events = [Event.gdbPid sid q.pid])
    ∧ ∀ p, tableGet st.gdbControllers sid = some (some p) →
        (client_connected cfg f sid st).exn = none
        ∧ (client_connected cfg f sid st).events = [Event.gdbPid sid p.pid]
        ∧ (client_connected cfg f sid st).state.gdbControllers
            = st.gdbControllers := by
  cases htg : tableGet st.gdbControllers sid with
  | none =>
      have hfresh : (tableGet st.gdbControllers sid).isNone = true := by
        rw [htg]
        rfl
      constructor
      · intro hok
        cases hflag : cfg.startupWithShellOff with
        | none =>
            exfalso
            have hx : (client_connected cfg f sid st).exn = some Exn.nameError := by
              simp [client_connected, hfresh, hflag]
            rw [hx] at hok
            cases hok
        | some flagOn =>
            cases f with
            | true =>
                exfalso
                have hx : (client_connected cfg true sid st).exn
                    = some Exn.spawnError := by
                  simp [client_connected, hfresh, hflag]
                rw [hx] at hok
                cases hok
            | false =>
                have hcc : client_connected cfg false sid st =
                    emitPidAndEnsureReader sid (insertController sid cfg flagOn st)
                      (some (spawnedArgsOf cfg flagOn st)) := by
                  simp [client_connected, hfresh, hflag]
                have hget := insertController_get sid cfg flagOn st htg
                rcases emitPid_found sid (insertController sid cfg flagOn st)
                    (some (spawnedArgsOf cfg flagOn st)) _ hget with ⟨h1, h2, h3, h4⟩
                refine ⟨{ pid := (appendShellOff cfg flagOn st).nextPid,
                          args := spawnedArgsOf cfg flagOn st,
                          pending := [], closed := false, writeFails := none },
                        ?_, ?_⟩
                · rw [hcc, h3]
                  exact hget
                · rw [hcc]
                  exact h1
      · intro p hp
        simp at hp
  | some g =>
      have hfull : (tableGet st.gdbControllers sid).isNone = false := by
        rw [htg]
        rfl
      have hcc : client_connected cfg f sid st
          = emitPidAndEnsureReader sid st none := by
        simp [client_connected, hfull]
      cases g with
      | none =>
          have hexn : (client_connected cfg f sid st).exn
              = some Exn.attributeError := by
            rw [hcc]
            simp [emitPidAndEnsureReader, htg]
          constructor
          · intro hok
            rw [hexn] at hok
            cases hok
          · intro p hp
            simp at hp
      | some p =>
          rcases emitPid_found sid st none p htg with ⟨h1, h2, h3, h4⟩
          constructor
          · intro _
            refine ⟨p, ?_, ?_⟩
            · rw [hcc, h3]
              exact htg
            · rw [hcc]
              exact h1
          · intro p2 hp2
            injection hp2 with hp3
            injection hp3 with hp4
            subst hp4
            exact ⟨by rw [hcc]; exact h2, by rw [hcc]; exact h1,
                   by rw [hcc]; exact h3⟩

/-- Witness for C10: a repeated connect for "a", which already owns the
process with pid 2, emits exactly the `gdb_pid` event for pid 2 and
leaves the table unchanged. -/
theorem c10_witness :
    (client_connected cfgPlain false "a" stDisc).exn = none
    ∧ (client_connected cfgPlain false "a" stDisc).events
        = [Event.gdbPid "a" procW.pid]
    ∧ (client_connected cfgPlain false "a" stDisc).state.gdbControllers
        = stDisc.gdbControllers :=
  (c10_connect_always_emits_gdb_pid cfgPlain false "a" stDisc).2 procW rfl

end Gdbgui
